import Mathlib

/-!
Verification of the Incident Diagnosis and Remediation Decision Engine.

This file is a shallow embedding of the decision core of the incident-response
orchestrator: the shared state model (`src/agents/state.py`), the diagnosis
engine (`src/agents/analyzer.py`), the decision policy and remediation
executor (`src/agents/responder.py`), and the pipeline coordinator
(`src/agents/orchestrator.py`).

Modelling conventions:
* Python `float` percentages, scores and confidences are modelled as `ℚ`:
  every arithmetic operation the engine performs on them (+, *, /2, min,
  comparison) is exact at these magnitudes.
* Python `datetime` values are modelled as rational timestamps (seconds);
  only differences of timestamps matter to the engine.
* Python `str` is Lean `String`; the substring operator `in` is `substr_of`
  below and `str.lower` is `str_lower` (ASCII lowering, as in the source
  data).
* `dict.get(key, 0)` on the resource-metric map is modelled by optional
  fields read through `mem_pct`/`cpu_pct` with default `0`.
* Fallible stages/collaborators return `Except String α`.
-/

/-! ## String helpers (Python `in` and `str.lower`) -/

/-- Lower-case a string character by character, as Python `str.lower` does on
the ASCII text this engine manipulates. -/
def str_lower (s : String) : String :=
  String.mk (s.toList.map Char.toLower)

/-- Does `n` occur as a contiguous sublist of the second argument? -/
def list_contains_sub (n : List Char) : List Char → Bool
  | [] => n.isEmpty
  | c :: t => n.isPrefixOf (c :: t) || list_contains_sub n t

/-- Python's substring test `needle in hay`. -/
def substr_of (needle hay : String) : Bool :=
  list_contains_sub needle.toList hay.toList

/-! ## Data model (src/agents/state.py) -/

/-- `AlertPayload`: incoming alert from the monitoring system. -/
structure AlertPayload where
  alert_id : String
  severity : String
  service : String
  timestamp : ℚ
  message : String
  tags : List String
deriving Repr, DecidableEq

/-- One entry of `Findings.recent_deployments` (the source stores these as
string-keyed records; the engine reads `version` and `timestamp`). -/
structure Deployment where
  version : String
  timestamp : String
  deployed_by : String
  commit_hash : String
deriving Repr, DecidableEq

/-- The resource-metric map of `DetectiveFindings.resource_metrics`; the
engine reads the keys `memory_pct`/`cpu_pct`/`disk_pct` with default 0. -/
structure ResourceMetrics where
  cpu_pct : Option ℚ
  memory_pct : Option ℚ
  disk_pct : Option ℚ
deriving Repr, DecidableEq

/-- `DetectiveFindings`: output of the evidence collector. -/
structure DetectiveFindings where
  affected_service : String
  error_spike_time : ℚ
  error_count : ℤ
  error_types : List String
  affected_hosts : List String
  affected_regions : List String
  resource_metrics : ResourceMetrics
  recent_deployments : List Deployment
  key_error_messages : List String
  investigation_duration_seconds : ℚ
deriving Repr, DecidableEq

/-- `resource_metrics.get('memory_pct', 0)`. -/
def mem_pct (f : DetectiveFindings) : ℚ :=
  (f.resource_metrics.memory_pct).getD 0

/-- `resource_metrics.get('cpu_pct', 0)`. -/
def cpu_pct (f : DetectiveFindings) : ℚ :=
  (f.resource_metrics.cpu_pct).getD 0

/-- `SimilarIncident`: one ranked historical match. -/
structure SimilarIncident where
  incident_id : String
  similarity_score : ℚ
  occurred_at : ℚ
  symptoms : String
  root_cause : String
  resolution_applied : String
  time_to_resolve : String
  success_rate : String
deriving Repr, DecidableEq

/-- `HistorianMatches`: output of the history matcher. -/
structure HistorianMatches where
  similar_incidents : List SimilarIncident
  recommendation : String
  search_duration_seconds : ℚ
deriving Repr, DecidableEq

/-- `Hypothesis`: a scored candidate root cause.  In the source this is a
pydantic model whose `confidence` field is a plain `float` (the `0-100`
range is stated in a comment only, not enforced). -/
structure Hypothesis where
  hypothesis : String
  confidence : ℚ
  supporting_evidence : List String
  validation_queries : List String
deriving Repr, DecidableEq

/-- `RootCauseAnalysis`: the selected primary cause. -/
structure RootCauseAnalysis where
  cause : String
  confidence : ℚ
  explanation : String
deriving Repr, DecidableEq

/-- `RecommendedAction`: the remediation proposal.  `risk_level` is a
`Literal["LOW", "MEDIUM", "HIGH"]` in the source. -/
structure RecommendedAction where
  action : String
  risk_level : String
  estimated_resolution_time : String
  rollback_plan : String
deriving Repr, DecidableEq

/-- `AnalyzerDiagnosis`: output of the diagnosis engine. -/
structure AnalyzerDiagnosis where
  hypotheses : List Hypothesis
  primary_root_cause : RootCauseAnalysis
  recommended_action : RecommendedAction
  reasoning_steps : List String
  analysis_duration_seconds : ℚ
deriving Repr, DecidableEq

/-- `ResponderAction`: output of the decision policy stage. -/
structure ResponderAction where
  decision : String
  action_taken : String
  execution_status : String
  execution_log : List String
  notifications_sent : List String
  monitoring_status : String
  execution_duration_seconds : ℚ
deriving Repr, DecidableEq

/-! ### Pydantic construction-time validation

Pydantic validates each field against its declared type when an entity is
constructed.  For `Literal[...]` fields this rejects any value outside the
listed alternatives; for a plain `float` field such as `confidence` there
is no range constraint, so any numeric value is accepted.  The `mk_*`
functions below model exactly this check (`none` = `ValidationError`). -/

/-- Construction of `Hypothesis`: `confidence` is declared `float`, so no
range validation happens. -/
def mk_Hypothesis (hypothesis : String) (confidence : ℚ)
    (supporting_evidence validation_queries : List String) : Option Hypothesis :=
  some ⟨hypothesis, confidence, supporting_evidence, validation_queries⟩

/-- Construction of `RootCauseAnalysis`: `confidence` is declared `float`,
so no range validation happens. -/
def mk_RootCauseAnalysis (cause : String) (confidence : ℚ)
    (explanation : String) : Option RootCauseAnalysis :=
  some ⟨cause, confidence, explanation⟩

/-- Construction of `RecommendedAction`: `risk_level` is declared
`Literal["LOW", "MEDIUM", "HIGH"]`, which pydantic enforces. -/
def mk_RecommendedAction (action risk_level estimated_resolution_time
    rollback_plan : String) : Option RecommendedAction :=
  if risk_level = "LOW" ∨ risk_level = "MEDIUM" ∨ risk_level = "HIGH" then
    some ⟨action, risk_level, estimated_resolution_time, rollback_plan⟩
  else
    none

/-! ## Decision policy (src/agents/responder.py, `_make_decision`) -/

/-- `ResponderAgent._make_decision`: AUTO_EXECUTE / REQUEST_APPROVAL /
ALERT_HUMAN from (confidence, risk tier).  The thresholds are the class
constants `AUTO_EXECUTE_MIN_CONFIDENCE = 85` and
`APPROVAL_MIN_CONFIDENCE = 70`. -/
def make_decision (confidence : ℚ) (risk_level : String) : String :=
  if risk_level = "HIGH" then
    "ALERT_HUMAN"
  else if 85 ≤ confidence ∧ risk_level = "LOW" then
    "AUTO_EXECUTE"
  else if 70 ≤ confidence then
    "REQUEST_APPROVAL"
  else
    "ALERT_HUMAN"

/-! ## Diagnosis engine (src/agents/analyzer.py)

`AnalyzerAgent._generate_hypotheses` evaluates four independent signal
channels in a fixed order (deployment, resource, connection pool, circuit
breaker), each contributing zero or one hypothesis, then stable-sorts the
collected hypotheses by descending confidence and keeps the top four. -/

/-- The similar-incident list of an optional `HistorianMatches`; the source
guards every use with `if history and history.similar_incidents`, which is
exactly "this list is nonempty". -/
def similar_incidents_of : Option HistorianMatches → List SimilarIncident
  | none => []
  | some h => h.similar_incidents

/-- Rendering of a percentage in evidence text.  The source formats to one
decimal (`f"{x:.1f}"`); the exact digits never influence any decision, so
the rendering function is the plain numeral. -/
def format_pct (q : ℚ) : String :=
  toString q

/-- Deployment channel: `Hypothesis 1` of `_generate_hypotheses`.  With a
recent deployment present, "Bad deployment causing errors" at base 75
(+10 when the best historical match has similarity > 80); with no
deployment record but more than 100 errors and a nonempty error-type list,
the lower-confidence fallback at 60 (raised to 70 when any historical
root cause mentions deployment).  This record is the deployment-present
hypothesis: base 75, +10 when the best match has similarity > 80. -/
def bad_deployment_hypothesis (f : DetectiveFindings) (h : Option HistorianMatches)
    (deployment : Deployment) : Hypothesis :=
  { hypothesis := "Bad deployment causing errors"
    confidence :=
      match similar_incidents_of h with
      | best :: _ => if 80 < best.similarity_score then 75 + 10 else 75
      | [] => 75
    supporting_evidence :=
      ["Deployment " ++ deployment.version ++ " occurred before error spike",
       "Error types include " ++ String.intercalate ", " (f.error_types.take 2),
       "Historical pattern matches deployment-related incident"]
    validation_queries :=
      ["Compared deployment timestamp with error spike time",
       "Verified error count increased after deployment"] }

/-- The hypothesis the no-deployment-data fallback path emits: base 60,
raised to 70 when any historical root cause mentions deployment. -/
def fallback_deployment_hypothesis (f : DetectiveFindings)
    (h : Option HistorianMatches) : Hypothesis :=
  { hypothesis := "Possible deployment-related issue (deployment data unavailable)"
    confidence :=
      if (similar_incidents_of h).any
          (fun incident => substr_of "deployment" (str_lower incident.root_cause)) then
        70
      else
        60
    supporting_evidence :=
      ["High error count: " ++ toString f.error_count,
       "Error types: " ++ String.intercalate ", " (f.error_types.take 3),
       "Unable to verify deployment timeline due to data query failure",
       "Historical incidents suggest deployment correlation"]
    validation_queries :=
      ["Attempted deployment query but index unavailable",
       "Analyzing error patterns and historical matches"] }

def deployment_channel (f : DetectiveFindings) (h : Option HistorianMatches) :
    Option Hypothesis :=
  match f.recent_deployments with
  | deployment :: _ => some (bad_deployment_hypothesis f h deployment)
  | [] =>
    if 0 < f.error_types.length ∧ 100 < f.error_count then
      some (fallback_deployment_hypothesis f h)
    else
      none

/-- The resource channel's memory-mention test over one error message:
`"OutOfMemory" in msg or "memory" in msg.lower()`. -/
def mentions_memory (msg : String) : Bool :=
  substr_of "OutOfMemory" msg || substr_of "memory" (str_lower msg)

/-- The hypothesis the resource channel emits (`Hypothesis 2`): base 50,
plus 1 per memory point over 60, plus 0.5 per cpu point over 70, plus 15
for an `OutOfMemoryError` error type, plus 10 for a memory-mentioning
error message, capped at 85. -/
def resource_hypothesis (f : DetectiveFindings) : Hypothesis :=
  { hypothesis := "Memory/CPU exhaustion causing service degradation"
    confidence :=
      min 85 (50
        + (if 60 < mem_pct f then (mem_pct f - 60) * 1 else 0)
        + (if 70 < cpu_pct f then (cpu_pct f - 70) * (1 / 2) else 0)
        + (if "OutOfMemoryError" ∈ f.error_types then 15 else 0)
        + (if f.key_error_messages.any mentions_memory then 10 else 0))
    supporting_evidence :=
      (if 60 < mem_pct f then ["Memory usage at " ++ format_pct (mem_pct f) ++ "%"] else [])
      ++ (if 70 < cpu_pct f then ["CPU usage at " ++ format_pct (cpu_pct f) ++ "%"] else [])
      ++ ["Error count: " ++ toString f.error_count,
          "Resource pressure indicators detected"]
    validation_queries :=
      ["Queried system.memory.used.pct over last hour",
       "Queried system.cpu.total.pct over last hour",
       "Correlated resource spikes with error spikes"] }

/-- Resource channel trigger: memory% > 60 or cpu% > 70. -/
def resource_channel (f : DetectiveFindings) : Option Hypothesis :=
  if 60 < mem_pct f ∨ 70 < cpu_pct f then some (resource_hypothesis f) else none

/-- The connection-pool channel's keyword test over one error message. -/
def is_connection_error (msg : String) : Bool :=
  ["connection", "timeout", "pool", "circuit breaker", "failed to allocate"].any
    (fun keyword => substr_of keyword (str_lower msg))

/-- Connection-pool channel (`Hypothesis 3`): at least two keyword-matching
error messages; base 55 + min(count*5, 25), +15 when a historical root
cause mentions connection or pool, capped at 85. -/
def connection_channel (f : DetectiveFindings) (h : Option HistorianMatches) :
    Option Hypothesis :=
  let connection_errors := f.key_error_messages.filter is_connection_error
  if 2 ≤ connection_errors.length then
    some { hypothesis := "Connection pool exhaustion or dependency failure"
           confidence :=
             min 85 (55
               + ((min (connection_errors.length * 5) 25 : ℕ) : ℚ)
               + (if (similar_incidents_of h).any
                     (fun incident =>
                       substr_of "connection" (str_lower incident.root_cause)
                       || substr_of "pool" (str_lower incident.root_cause)) then
                    15
                  else 0))
           supporting_evidence :=
             ["Found " ++ toString connection_errors.length ++ " connection-related errors",
              connection_errors.head?.getD "Connection issues detected",
              "Error rate spike: " ++ toString f.error_count ++ " errors",
              "Pattern suggests resource contention"]
           validation_queries :=
             ["Analyzed connection error patterns",
              "Checked for connection pool saturation indicators",
              "Correlated with historical connection pool incidents"] }
  else
    none

/-- The circuit-breaker channel's keyword test over one error message. -/
def is_circuit_breaker_error (msg : String) : Bool :=
  substr_of "circuit breaker" (str_lower msg) || substr_of "circuit opened" (str_lower msg)

/-- Circuit-breaker channel (`Hypothesis 4`): any matching error message;
base 65 + min(count*10, 20), capped at 85. -/
def circuit_channel (f : DetectiveFindings) : Option Hypothesis :=
  match f.key_error_messages.filter is_circuit_breaker_error with
  | [] => none
  | e :: rest =>
    some { hypothesis := "Circuit breaker activation indicating downstream dependency failure"
           confidence := min 85 (65 + ((min ((e :: rest).length * 10) 20 : ℕ) : ℚ))
           supporting_evidence :=
             ["Circuit breaker errors detected: " ++ toString (e :: rest).length,
              e,
              "Suggests downstream service unavailability"]
           validation_queries :=
             ["Analyzed circuit breaker patterns",
              "Checked for cascading failure indicators"] }

/-- The hypotheses collected channel by channel, in evaluation order. -/
def channel_hypotheses (f : DetectiveFindings) (h : Option HistorianMatches) :
    List Hypothesis :=
  (deployment_channel f h).toList ++ (resource_channel f).toList
    ++ (connection_channel f h).toList ++ (circuit_channel f).toList

/-- Stable descending insertion: the new element goes after every element of
at-least-equal confidence. -/
def insert_desc (x : Hypothesis) : List Hypothesis → List Hypothesis
  | [] => [x]
  | y :: ys => if x.confidence ≤ y.confidence then y :: insert_desc x ys else x :: y :: ys

/-- `hypotheses.sort(key=lambda h: h.confidence, reverse=True)`: Python's
sort is stable, so it is the stable descending sort by confidence. -/
def sort_desc (l : List Hypothesis) : List Hypothesis :=
  l.foldl (fun acc x => insert_desc x acc) []

/-- `AnalyzerAgent._generate_hypotheses`: evaluate the four channels, sort
descending by confidence (stably), return the top 4. -/
def generate_hypotheses (f : DetectiveFindings) (h : Option HistorianMatches) :
    List Hypothesis :=
  (sort_desc (channel_hypotheses f h)).take 4

/-- `AnalyzerAgent._determine_primary_cause`: with no hypothesis, the fixed
"Unknown - insufficient data" cause at confidence 30; otherwise the top
hypothesis verbatim, history-boosted (+10 capped at 95 above similarity
85, +5 capped at 90 above similarity 70). -/
def determine_primary_cause (hypotheses : List Hypothesis)
    (h : Option HistorianMatches) : RootCauseAnalysis :=
  match hypotheses with
  | [] =>
    { cause := "Unknown - insufficient data"
      confidence := 30
      explanation := "Unable to determine root cause with available data" }
  | top :: _ =>
    let boosted : ℚ × String :=
      match similar_incidents_of h with
      | [] => (top.confidence, "")
      | best :: _ =>
        if 85 < best.similarity_score then
          (min 95 (top.confidence + 10),
           " Similar to " ++ best.incident_id ++ " which was resolved by: "
             ++ best.resolution_applied)
        else if 70 < best.similarity_score then
          (min 90 (top.confidence + 5),
           " Moderately similar to " ++ best.incident_id ++ ".")
        else
          (top.confidence, "")
    { cause := top.hypothesis
      confidence := boosted.1
      explanation :=
        top.hypothesis ++ ". " ++ "Evidence: "
          ++ String.intercalate "; " (top.supporting_evidence.take 2) ++ ". "
          ++ boosted.2 }

/-- `AnalyzerAgent._recommend_action`: keyword lookup over the lower-cased
cause text in priority order deployment, memory/cpu/resource,
connection/pool, circuit/dependency, default. -/
def recommend_action (root_cause : RootCauseAnalysis) (f : DetectiveFindings) :
    RecommendedAction :=
  let cause_lower := str_lower root_cause.cause
  if substr_of "deployment" cause_lower then
    { action := "Rollback " ++ f.affected_service ++ " to previous version"
      risk_level := "LOW"
      estimated_resolution_time := "3-5 minutes"
      rollback_plan := "Deployment rollback is reversible. Can re-deploy if rollback doesn\x27t resolve issue." }
  else if substr_of "memory" cause_lower ∨ substr_of "cpu" cause_lower
      ∨ substr_of "resource" cause_lower then
    { action := "Restart " ++ f.affected_service ++ " pods and scale replicas"
      risk_level := "LOW"
      estimated_resolution_time := "5-8 minutes"
      rollback_plan := "Pod restart is safe. Can scale down if issue persists." }
  else if substr_of "connection" cause_lower ∨ substr_of "pool" cause_lower then
    { action := "Scale database/Redis replicas and restart " ++ f.affected_service
      risk_level := "MEDIUM"
      estimated_resolution_time := "8-12 minutes"
      rollback_plan := "Scaling is reversible. Monitor connection metrics after change." }
  else if substr_of "circuit" cause_lower ∨ substr_of "dependency" cause_lower then
    { action := "Investigate downstream dependencies and restart " ++ f.affected_service
      risk_level := "MEDIUM"
      estimated_resolution_time := "10-15 minutes"
      rollback_plan := "Identify failed dependency. May need to route traffic away from affected region." }
  else
    { action := "Restart " ++ f.affected_service ++ " and monitor closely"
      risk_level := "MEDIUM"
      estimated_resolution_time := "5-10 minutes"
      rollback_plan := "Generic restart. Escalate to human if not resolved within 5 minutes." }

/-! ## Remediation execution (src/agents/responder.py)

Log-entry timestamps (`datetime.utcnow().isoformat()` prefixes) and the
numeric interpolation of confidence/risk into rationale lines are
abstracted to the fixed message texts; neither influences any decision. -/

/-- `ResponderAgent._execute_remediation`: keyword-dispatched simulation.
Every branch, including the unrecognized-action fallback, returns success
together with its canned log. -/
def execute_remediation (action service : String) : Bool × List String :=
  let log0 := ["Executing: " ++ action]
  if substr_of "rollback" (str_lower action) then
    (true, log0 ++ ["Initiating deployment rollback for " ++ service,
                    "Rolling back to previous version",
                    "Rollback completed successfully"])
  else if substr_of "restart" (str_lower action) then
    (true, log0 ++ ["Initiating pod restart for " ++ service,
                    "Performing rolling restart",
                    "All pods restarted successfully"])
  else if substr_of "scale" (str_lower action) then
    (true, log0 ++ ["Initiating scaling operation for " ++ service,
                    "Scaling replicas",
                    "Scaling completed successfully"])
  else
    (true, log0 ++ ["Action type not recognized, simulation only"])

/-- `ResponderAgent._monitor_service` (placeholder probe). -/
def monitor_service (service : String) (duration_seconds : ℤ) : String :=
  "Service " ++ service ++ " monitored for " ++ toString duration_seconds
    ++ "s. Error rate decreased by 95%. Service healthy."

/-- `ResponderAgent._execute_decision`: build the `ResponderAction` for the
decision taken.  AUTO_EXECUTE runs the remediation and reports SUCCESS or
FAILED from its boolean result; the other two decisions defer with status
PENDING_APPROVAL. -/
def execute_decision (findings : DetectiveFindings) (diagnosis : AnalyzerDiagnosis)
    (decision : String) : ResponderAction :=
  if decision = "AUTO_EXECUTE" then
    let result := execute_remediation diagnosis.recommended_action.action
      findings.affected_service
    { decision := decision
      action_taken := diagnosis.recommended_action.action
      execution_status := if result.1 then "SUCCESS" else "FAILED"
      execution_log := "Auto-execution approved" :: result.2
      notifications_sent := ["Slack: incident-alerts"]
      monitoring_status := monitor_service findings.affected_service 60
      execution_duration_seconds := 0 }
  else if decision = "REQUEST_APPROVAL" then
    { decision := decision
      action_taken := "Awaiting human approval"
      execution_status := "PENDING_APPROVAL"
      execution_log := ["Requesting human approval"]
      notifications_sent := ["Slack: incident-alerts (approval requested)"]
      monitoring_status := "Awaiting approval decision"
      execution_duration_seconds := 0 }
  else
    { decision := decision
      action_taken := "No automatic action taken - human alerted"
      execution_status := "PENDING_APPROVAL"
      execution_log := ["Human intervention required"]
      notifications_sent := ["Slack: incident-alerts", "PagerDuty: on-call engineer"]
      monitoring_status := "Awaiting human investigation"
      execution_duration_seconds := 0 }

/-! ## Incident state and pipeline coordinator
(src/agents/state.py `IncidentState`, src/agents/orchestrator.py)

The coordinator's graph is the linear chain detective → historian →
analyzer → responder.  Graph execution (`workflow.invoke`) runs over the
graph engine's own working state, initialised from the input state; each
node invokes its agent on the current working state and the engine merges
the node's partial update (its output field plus the advanced
`workflow_status`) before the next node runs.  The input state object is
never written to by `invoke`: on success `handle_alert` copies the
result's fields back into it with an explicit setattr loop, and on a node
failure the working state is discarded and the exception propagates bare,
so `handle_alert`'s except-branch marks the *pre-run* initial state
failed — that state holds no stage outputs — and re-raises.  The agents
themselves are parameters (`Except`-valued functions), so the coordinator
theorems cover any stage behaviour, including failure at any stage.
Timeline `details` maps and wall-clock timestamps inside timeline records
are abstracted to the (agent, event) pair; `started_at` and the
completion instant are explicit parameters. -/

/-- `IncidentState`: the record threading through the pipeline. -/
structure IncidentState where
  incident_id : String
  alert : AlertPayload
  detective_findings : Option DetectiveFindings := none
  historian_matches : Option HistorianMatches := none
  analyzer_diagnosis : Option AnalyzerDiagnosis := none
  responder_action : Option ResponderAction := none
  workflow_status : String := "started"
  started_at : ℚ
  completed_at : Option ℚ := none
  total_duration_seconds : Option ℚ := none
  timeline : List (String × String) := []
  errors : List String := []
deriving Repr, DecidableEq

/-- `IncidentState.add_timeline_event` (details map abstracted). -/
def add_timeline_event (s : IncidentState) (agent event : String) : IncidentState :=
  { s with timeline := s.timeline ++ [(agent, event)] }

/-- `IncidentState.mark_completed`. -/
def mark_completed (s : IncidentState) (now : ℚ) : IncidentState :=
  { s with workflow_status := "completed"
           completed_at := some now
           total_duration_seconds := some (now - s.started_at) }

/-- `IncidentState.mark_failed`: failed status, completion timestamp, the
error appended, total duration. -/
def mark_failed (s : IncidentState) (error : String) (now : ℚ) : IncidentState :=
  { s with workflow_status := "failed"
           completed_at := some now
           errors := s.errors ++ [error]
           total_duration_seconds := some (now - s.started_at) }

/-- The state `handle_alert` constructs before running the workflow (the
incident id is derived from the start instant, as the source derives it
from the wall clock). -/
def init_state (alert : AlertPayload) (start_time : ℚ) : IncidentState :=
  { incident_id := "INC-" ++ toString start_time
    alert := alert
    started_at := start_time
    timeline := [("orchestrator", "Incident workflow started")] }

/-- Merge of the detective node's partial update
(`{"detective_findings": ..., "workflow_status": "investigating"}`). -/
def after_detective (s : IncidentState) (findings : DetectiveFindings) : IncidentState :=
  { s with detective_findings := some findings, workflow_status := "investigating" }

/-- Merge of the historian node's partial update
(`{"historian_matches": ..., "workflow_status": "analyzing"}`). -/
def after_historian (s : IncidentState) (found : HistorianMatches) : IncidentState :=
  { s with historian_matches := some found, workflow_status := "analyzing" }

/-- Merge of the analyzer node's partial update
(`{"analyzer_diagnosis": ..., "workflow_status": "responding"}`). -/
def after_analyzer (s : IncidentState) (diagnosis : AnalyzerDiagnosis) : IncidentState :=
  { s with analyzer_diagnosis := some diagnosis, workflow_status := "responding" }

/-- Merge of the responder node's partial update; the responder also marks
the incident completed. -/
def after_responder (s : IncidentState) (action : ResponderAction) (now : ℚ) :
    IncidentState :=
  mark_completed { s with responder_action := some action } now

/-- `self.workflow.invoke(initial_state)`: the graph engine runs the four
nodes in sequence over its own working state (initialised from the input
state), merging each node's partial update; the input object itself is
never written to.  On a node failure the working state is discarded and
the exception propagates bare. -/
def workflow_invoke (investigate : IncidentState → Except String DetectiveFindings)
    (search_history : IncidentState → Except String HistorianMatches)
    (analyze : IncidentState → Except String AnalyzerDiagnosis)
    (respond : IncidentState → Except String ResponderAction)
    (finish_time : ℚ) (s0 : IncidentState) :
    Except String IncidentState :=
  match investigate s0 with
  | .error e => .error e
  | .ok findings =>
    let s1 := after_detective s0 findings
    match search_history s1 with
    | .error e => .error e
    | .ok found =>
      let s2 := after_historian s1 found
      match analyze s2 with
      | .error e => .error e
      | .ok diagnosis =>
        let s3 := after_analyzer s2 diagnosis
        match respond s3 with
        | .error e => .error e
        | .ok action => .ok (after_responder s3 action finish_time)

/-- `IncidentOrchestrator.handle_alert`: construct the initial state and
invoke the workflow.  On success, copy the result's fields back into the
initial state (the source's explicit setattr loop — which yields the
result state itself, every field of which came from the run) and ensure
completion.  On an uncaught stage failure, call `mark_failed` on the
pre-run initial state — `invoke` never wrote any node output back into
it, so that state holds no stage outputs — and re-raise: the `error`
value pairs the re-raised exception with that failed state object (the
source's caller receives only the exception; the state is the
coordinator's local object at raise time, carried here so its fields can
be specified). -/
def handle_alert (investigate : IncidentState → Except String DetectiveFindings)
    (search_history : IncidentState → Except String HistorianMatches)
    (analyze : IncidentState → Except String AnalyzerDiagnosis)
    (respond : IncidentState → Except String ResponderAction)
    (alert : AlertPayload) (start_time finish_time : ℚ) :
    Except (String × IncidentState) IncidentState :=
  let s0 := init_state alert start_time
  match workflow_invoke investigate search_history analyze respond finish_time s0 with
  | .ok final =>
    .ok (if final.workflow_status = "completed" then final
         else mark_completed final finish_time)
  | .error e => .error (e, mark_failed s0 e finish_time)

/-! ## Structural lemmas about hypothesis generation -/

/-- The channel a hypothesis was emitted by, recoverable from its fixed
candidate-cause text (each channel emits a distinct literal). -/
def channel_index (hp : Hypothesis) : ℕ :=
  if hp.hypothesis = "Bad deployment causing errors"
      ∨ hp.hypothesis = "Possible deployment-related issue (deployment data unavailable)" then 0
  else if hp.hypothesis = "Memory/CPU exhaustion causing service degradation" then 1
  else if hp.hypothesis = "Connection pool exhaustion or dependency failure" then 2
  else if hp.hypothesis = "Circuit breaker activation indicating downstream dependency failure" then 3
  else 4

/-- The order `sort_desc` establishes: strictly higher confidence first,
ties resolved by channel evaluation order. -/
def hyp_order (a b : Hypothesis) : Prop :=
  b.confidence < a.confidence
    ∨ (a.confidence = b.confidence ∧ channel_index a < channel_index b)

/-! ## Concrete instances

Closed inputs used to evaluate the engine at specific points (the spec's
end-to-end scenarios and boundary inputs). -/

/-- Scenario C findings: error_count 5, no error types, memory 20%, cpu 20%. -/
def findings_scenario_c : DetectiveFindings :=
  { affected_service := "checkout-service"
    error_spike_time := 0
    error_count := 5
    error_types := []
    affected_hosts := []
    affected_regions := []
    resource_metrics := { cpu_pct := some 20, memory_pct := some 20, disk_pct := some 30 }
    recent_deployments := []
    key_error_messages := []
    investigation_duration_seconds := 0 }

/-- Scenario C history: a `HistorianMatches` with zero matches. -/
def hist_scenario_c : Option HistorianMatches :=
  some { similar_incidents := [], recommendation := "No similar incidents found",
         search_duration_seconds := 0 }

/-- Findings triggering the resource channel: memory 80%, cpu 75%, an
out-of-memory error type and a memory-mentioning message. -/
def findings_resource_demo : DetectiveFindings :=
  { findings_scenario_c with
      error_count := 900
      error_types := ["OutOfMemoryError"]
      resource_metrics := { cpu_pct := some 75, memory_pct := some 80, disk_pct := some 30 }
      key_error_messages := ["java.lang.OutOfMemoryError: Java heap space"] }

/-- Findings for the no-deployment-data fallback: empty deployment list,
error_count over the volume threshold, one error type. -/
def findings_no_deploy_demo : DetectiveFindings :=
  { findings_scenario_c with
      error_count := 500
      error_types := ["ServiceUnavailableError"] }

/-- A top hypothesis at confidence 80. -/
def hyp_80 : Hypothesis :=
  { hypothesis := "Bad deployment causing errors", confidence := 80
    supporting_evidence := [], validation_queries := [] }

/-- A best historical match at similarity exactly 70. -/
def hist_sim70 : Option HistorianMatches :=
  some { similar_incidents :=
           [{ incident_id := "INC-2024-001", similarity_score := 70, occurred_at := 0
              symptoms := "error spike", root_cause := "bad deployment"
              resolution_applied := "rollback", time_to_resolve := "5m"
              success_rate := "100%" }]
         recommendation := "rollback", search_duration_seconds := 0 }

/-- A best historical match at similarity 90. -/
def hist_sim90 : Option HistorianMatches :=
  some { similar_incidents :=
           [{ incident_id := "INC-2024-002", similarity_score := 90, occurred_at := 0
              symptoms := "error spike", root_cause := "bad deployment"
              resolution_applied := "rollback", time_to_resolve := "5m"
              success_rate := "100%" }]
         recommendation := "rollback", search_duration_seconds := 0 }

/-- A root cause whose text mentions deployment. -/
def rc_deploy_demo : RootCauseAnalysis :=
  { cause := "Bad deployment causing errors", confidence := 90
    explanation := "demo" }

/-- A demo alert. -/
def demo_alert : AlertPayload :=
  { alert_id := "AL-1", severity := "critical", service := "checkout-service"
    timestamp := 0, message := "Error rate spike detected", tags := [] }

/-- A detective stage that succeeds with the scenario C findings. -/
def demo_investigate : IncidentState → Except String DetectiveFindings :=
  fun _ => Except.ok findings_scenario_c

/-- A historian stage that raises. -/
def demo_search_history_fail : IncidentState → Except String HistorianMatches :=
  fun _ => Except.error "history index unavailable"

/-- An analyzer stage that raises (never reached in the witness run). -/
def demo_analyze_fail : IncidentState → Except String AnalyzerDiagnosis :=
  fun _ => Except.error "not reached"

/-- A responder stage that raises (never reached in the witness run). -/
def demo_respond_fail : IncidentState → Except String ResponderAction :=
  fun _ => Except.error "not reached"

theorem hyp_order_conf {a b : Hypothesis} (h : hyp_order a b) :
    b.confidence ≤ a.confidence := by
  rcases h with h | ⟨h, _⟩
  · exact le_of_lt h
  · exact le_of_eq h.symm

theorem mem_insert_desc {a x : Hypothesis} {l : List Hypothesis} :
    a ∈ insert_desc x l ↔ a = x ∨ a ∈ l := by
  induction l with
  | nil => simp [insert_desc]
  | cons y ys ih =>
    simp only [insert_desc]
    split
    · simp only [List.mem_cons, ih]
      tauto
    · simp only [List.mem_cons]
      try tauto

theorem length_insert_desc (x : Hypothesis) (l : List Hypothesis) :
    (insert_desc x l).length = l.length + 1 := by
  induction l with
  | nil => simp [insert_desc]
  | cons y ys ih =>
    simp only [insert_desc]
    split
    · simp [ih]
    · simp

theorem mem_foldl_insert_desc (l : List Hypothesis) :
    ∀ (acc : List Hypothesis) (a : Hypothesis),
      a ∈ List.foldl (fun acc x => insert_desc x acc) acc l ↔ a ∈ acc ∨ a ∈ l := by
  induction l with
  | nil => intro acc a; simp
  | cons x xs ih =>
    intro acc a
    simp only [List.foldl_cons, ih, mem_insert_desc, List.mem_cons]
    tauto

theorem mem_sort_desc {a : Hypothesis} {l : List Hypothesis} :
    a ∈ sort_desc l ↔ a ∈ l := by
  unfold sort_desc
  rw [mem_foldl_insert_desc]
  simp

theorem length_foldl_insert_desc (l : List Hypothesis) :
    ∀ (acc : List Hypothesis),
      (List.foldl (fun acc x => insert_desc x acc) acc l).length
        = acc.length + l.length := by
  induction l with
  | nil => intro acc; simp
  | cons x xs ih =>
    intro acc
    simp only [List.foldl_cons, ih, length_insert_desc, List.length_cons]
    omega

theorem length_sort_desc (l : List Hypothesis) :
    (sort_desc l).length = l.length := by
  unfold sort_desc
  rw [length_foldl_insert_desc]
  simp

theorem pairwise_insert_desc (x : Hypothesis) :
    ∀ (l : List Hypothesis), l.Pairwise hyp_order →
      (∀ y ∈ l, channel_index y < channel_index x) →
      (insert_desc x l).Pairwise hyp_order := by
  intro l
  induction l with
  | nil => intro _ _; simp [insert_desc]
  | cons y ys ih =>
    intro hl hidx
    rw [List.pairwise_cons] at hl
    obtain ⟨hy, hys⟩ := hl
    by_cases hc : x.confidence ≤ y.confidence
    · simp only [insert_desc, if_pos hc]
      rw [List.pairwise_cons]
      refine ⟨fun z hz => ?_, ih hys fun z hz => hidx z (by simp [hz])⟩
      rcases mem_insert_desc.mp hz with rfl | hz
      · rcases lt_or_eq_of_le hc with h | h
        · exact Or.inl h
        · exact Or.inr ⟨h.symm, hidx y (by simp)⟩
      · exact hy z hz
    · push_neg at hc
      simp only [insert_desc, if_neg (not_le.mpr hc)]
      rw [List.pairwise_cons]
      refine ⟨fun z hz => ?_, List.pairwise_cons.mpr ⟨hy, hys⟩⟩
      rcases List.mem_cons.mp hz with rfl | hz
      · exact Or.inl hc
      · exact Or.inl (lt_of_le_of_lt (hyp_order_conf (hy z hz)) hc)

theorem pairwise_sort_desc_aux :
    ∀ (l acc : List Hypothesis), acc.Pairwise hyp_order →
      (∀ y ∈ acc, ∀ z ∈ l, channel_index y < channel_index z) →
      l.Pairwise (fun a b => channel_index a < channel_index b) →
      (List.foldl (fun acc x => insert_desc x acc) acc l).Pairwise hyp_order := by
  intro l
  induction l with
  | nil => intro acc hacc _ _; simpa using hacc
  | cons x xs ih =>
    intro acc hacc hcross hl
    rw [List.pairwise_cons] at hl
    obtain ⟨hx, hxs⟩ := hl
    simp only [List.foldl_cons]
    apply ih
    · exact pairwise_insert_desc x acc hacc fun y hy => hcross y hy x (by simp)
    · intro y hy z hz
      rcases mem_insert_desc.mp hy with rfl | hy
      · exact hx z hz
      · exact hcross y hy z (by simp [hz])
    · exact hxs

theorem pairwise_sort_desc {l : List Hypothesis}
    (h : l.Pairwise fun a b => channel_index a < channel_index b) :
    (sort_desc l).Pairwise hyp_order := by
  unfold sort_desc
  exact pairwise_sort_desc_aux l [] (by simp) (by simp) h

theorem deployment_channel_text {f : DetectiveFindings} {h : Option HistorianMatches}
    {x : Hypothesis} (hx : deployment_channel f h = some x) :
    x.hypothesis = "Bad deployment causing errors"
      ∨ x.hypothesis = "Possible deployment-related issue (deployment data unavailable)" := by
  unfold deployment_channel at hx
  split at hx
  · left
    rw [← Option.some_inj.mp hx]
    rfl
  · split at hx
    · right
      rw [← Option.some_inj.mp hx]
      rfl
    · exact absurd hx (by simp)

theorem resource_channel_text {f : DetectiveFindings} {x : Hypothesis}
    (hx : resource_channel f = some x) :
    x.hypothesis = "Memory/CPU exhaustion causing service degradation" := by
  unfold resource_channel at hx
  split at hx
  · rw [Option.some_inj] at hx
    rw [← hx]
    rfl
  · exact absurd hx (by simp)

theorem connection_channel_text {f : DetectiveFindings} {h : Option HistorianMatches}
    {x : Hypothesis} (hx : connection_channel f h = some x) :
    x.hypothesis = "Connection pool exhaustion or dependency failure" := by
  unfold connection_channel at hx
  simp only at hx
  split at hx
  · rw [Option.some_inj] at hx
    rw [← hx]
  · exact absurd hx (by simp)

theorem circuit_channel_text {f : DetectiveFindings} {x : Hypothesis}
    (hx : circuit_channel f = some x) :
    x.hypothesis = "Circuit breaker activation indicating downstream dependency failure" := by
  unfold circuit_channel at hx
  split at hx
  · exact absurd hx (by simp)
  · rw [← Option.some_inj.mp hx]

theorem pairwise_option_toList (o : Option Hypothesis)
    (R : Hypothesis → Hypothesis → Prop) : (o.toList).Pairwise R := by
  cases o <;> simp

theorem channel_index_dep_mem {f : DetectiveFindings} {h : Option HistorianMatches}
    {x : Hypothesis} (hx : x ∈ (deployment_channel f h).toList) : channel_index x = 0 := by
  rw [Option.mem_toList, Option.mem_def] at hx
  rcases deployment_channel_text hx with ht | ht
  · unfold channel_index
    rw [ht]
    decide
  · unfold channel_index
    rw [ht]
    decide

theorem channel_index_res_mem {f : DetectiveFindings} {x : Hypothesis}
    (hx : x ∈ (resource_channel f).toList) : channel_index x = 1 := by
  rw [Option.mem_toList, Option.mem_def] at hx
  unfold channel_index
  rw [resource_channel_text hx]
  decide

theorem channel_index_conn_mem {f : DetectiveFindings} {h : Option HistorianMatches}
    {x : Hypothesis} (hx : x ∈ (connection_channel f h).toList) : channel_index x = 2 := by
  rw [Option.mem_toList, Option.mem_def] at hx
  unfold channel_index
  rw [connection_channel_text hx]
  decide

theorem channel_index_circ_mem {f : DetectiveFindings} {x : Hypothesis}
    (hx : x ∈ (circuit_channel f).toList) : channel_index x = 3 := by
  rw [Option.mem_toList, Option.mem_def] at hx
  unfold channel_index
  rw [circuit_channel_text hx]
  decide

theorem channel_hypotheses_pairwise (f : DetectiveFindings) (h : Option HistorianMatches) :
    (channel_hypotheses f h).Pairwise fun a b => channel_index a < channel_index b := by
  unfold channel_hypotheses
  refine List.pairwise_append.mpr ⟨?_, pairwise_option_toList _ _, ?_⟩
  · refine List.pairwise_append.mpr ⟨?_, pairwise_option_toList _ _, ?_⟩
    · refine List.pairwise_append.mpr
        ⟨pairwise_option_toList _ _, pairwise_option_toList _ _, ?_⟩
      intro a ha b hb
      rw [channel_index_dep_mem ha, channel_index_res_mem hb]
      decide
    · intro a ha b hb
      rcases List.mem_append.mp ha with ha | ha
      · rw [channel_index_dep_mem ha, channel_index_conn_mem hb]
        decide
      · rw [channel_index_res_mem ha, channel_index_conn_mem hb]
        decide
  · intro a ha b hb
    rcases List.mem_append.mp ha with ha | ha
    · rcases List.mem_append.mp ha with ha | ha
      · rw [channel_index_dep_mem ha, channel_index_circ_mem hb]
        decide
      · rw [channel_index_res_mem ha, channel_index_circ_mem hb]
        decide
    · rw [channel_index_conn_mem ha, channel_index_circ_mem hb]
      decide

theorem option_toList_length_le (o : Option Hypothesis) : o.toList.length ≤ 1 := by
  cases o <;> simp

theorem length_channel_hypotheses_le (f : DetectiveFindings) (h : Option HistorianMatches) :
    (channel_hypotheses f h).length ≤ 4 := by
  unfold channel_hypotheses
  simp only [List.length_append]
  have h1 := option_toList_length_le (deployment_channel f h)
  have h2 := option_toList_length_le (resource_channel f)
  have h3 := option_toList_length_le (connection_channel f h)
  have h4 := option_toList_length_le (circuit_channel f)
  omega

theorem generate_hypotheses_eq_sort (f : DetectiveFindings) (h : Option HistorianMatches) :
    generate_hypotheses f h = sort_desc (channel_hypotheses f h) := by
  unfold generate_hypotheses
  exact List.take_of_length_le
    (by rw [length_sort_desc]; exact length_channel_hypotheses_le f h)

theorem mem_generate_hypotheses {f : DetectiveFindings} {h : Option HistorianMatches}
    {x : Hypothesis} : x ∈ generate_hypotheses f h ↔ x ∈ channel_hypotheses f h := by
  rw [generate_hypotheses_eq_sort, mem_sort_desc]

theorem mem_channel_hypotheses {f : DetectiveFindings} {h : Option HistorianMatches}
    {x : Hypothesis} :
    x ∈ channel_hypotheses f h ↔
      deployment_channel f h = some x ∨ resource_channel f = some x
        ∨ connection_channel f h = some x ∨ circuit_channel f = some x := by
  simp [channel_hypotheses, Option.mem_toList, Option.mem_def, List.mem_append, or_assoc]

/-! ## Claim theorems -/

/-- C1: the decision policy is a pure total function of
(confidence, riskTier): for every confidence in [0, 100] and risk tier in
{LOW, MEDIUM, HIGH} it returns ALERT_HUMAN when the tier is HIGH
regardless of confidence; otherwise AUTO_EXECUTE when confidence ≥ 85 and
the tier is LOW; otherwise REQUEST_APPROVAL when confidence ≥ 70;
otherwise ALERT_HUMAN.  In particular decide(90, LOW) = AUTO_EXECUTE,
decide(90, HIGH) = ALERT_HUMAN, decide(75, MEDIUM) = REQUEST_APPROVAL and
decide(50, LOW) = ALERT_HUMAN. -/
theorem C1_decision_policy :
    (∀ (confidence : ℚ) (risk_level : String),
      0 ≤ confidence → confidence ≤ 100 →
      (risk_level = "LOW" ∨ risk_level = "MEDIUM" ∨ risk_level = "HIGH") →
      (risk_level = "HIGH" → make_decision confidence risk_level = "ALERT_HUMAN")
      ∧ (risk_level ≠ "HIGH" → 85 ≤ confidence → risk_level = "LOW" →
          make_decision confidence risk_level = "AUTO_EXECUTE")
      ∧ (risk_level ≠ "HIGH" → ¬(85 ≤ confidence ∧ risk_level = "LOW") →
          70 ≤ confidence → make_decision confidence risk_level = "REQUEST_APPROVAL")
      ∧ (risk_level ≠ "HIGH" → ¬(85 ≤ confidence ∧ risk_level = "LOW") →
          ¬(70 ≤ confidence) → make_decision confidence risk_level = "ALERT_HUMAN"))
    ∧ make_decision 90 "LOW" = "AUTO_EXECUTE"
    ∧ make_decision 90 "HIGH" = "ALERT_HUMAN"
    ∧ make_decision 75 "MEDIUM" = "REQUEST_APPROVAL"
    ∧ make_decision 50 "LOW" = "ALERT_HUMAN" := by
  refine ⟨?_, by decide, by decide, by decide, by decide⟩
  intro confidence risk_level _ _ _
  unfold make_decision
  refine ⟨?_, ?_, ?_, ?_⟩
  · intro hh
    rw [if_pos hh]
  · intro hh hc hl
    rw [if_neg hh, if_pos ⟨hc, hl⟩]
  · intro hh hcl hc
    rw [if_neg hh, if_neg hcl, if_pos hc]
  · intro hh hcl hc
    rw [if_neg hh, if_neg hcl, if_neg hc]

/-- Witness for C1: the universal clause applied at confidence 90 and tier
LOW. -/
theorem C1_decision_policy_witness : make_decision 90 "LOW" = "AUTO_EXECUTE" :=
  ((C1_decision_policy.1 90 "LOW" (by decide) (by decide) (Or.inl rfl)).2.1
    (by decide) (by decide) rfl)

/-- C10 (implicit): the simulated remediation executor returns success for
every action string, including the unrecognized fallback branch, so an
AUTO_EXECUTE decision always produces execution status SUCCESS; no
decision path produces FAILED (every path ends SUCCESS or
PENDING_APPROVAL). -/
theorem C10_remediation_always_succeeds :
    (∀ action service : String, (execute_remediation action service).1 = true)
    ∧ (∀ (findings : DetectiveFindings) (diagnosis : AnalyzerDiagnosis),
        (execute_decision findings diagnosis "AUTO_EXECUTE").execution_status
          = "SUCCESS")
    ∧ (∀ (findings : DetectiveFindings) (diagnosis : AnalyzerDiagnosis)
        (decision : String),
        (execute_decision findings diagnosis decision).execution_status = "SUCCESS"
          ∨ (execute_decision findings diagnosis decision).execution_status
              = "PENDING_APPROVAL") := by
  have hrem : ∀ action service : String, (execute_remediation action service).1 = true := by
    intro action service
    unfold execute_remediation
    split_ifs <;> rfl
  refine ⟨hrem, ?_, ?_⟩
  · intro findings diagnosis
    unfold execute_decision
    rw [if_pos rfl]
    simp only [hrem, if_true]
  · intro findings diagnosis decision
    unfold execute_decision
    split_ifs
    · left
      simp only [hrem, if_true]
    · right
      rfl
    · right
      rfl

/-- C8 counterexample: a `Hypothesis` with confidence 150 — outside
[0, 100] — is accepted at construction (pydantic checks only the `float`
type of `confidence`), so construction does not reject out-of-range
confidences as the claim states. -/
theorem C8_counterexample :
    mk_Hypothesis "Bad deployment causing errors" 150 [] []
        = some { hypothesis := "Bad deployment causing errors", confidence := 150
                 supporting_evidence := [], validation_queries := [] }
      ∧ ¬((0 : ℚ) ≤ 150 ∧ (150 : ℚ) ≤ 100) := by
  exact ⟨rfl, by decide⟩

/-- C8 (amended): an unrecognized risk tier is rejected when a
`RecommendedAction` is constructed (its `Literal` type is validated), but
a confidence outside [0, 100] is accepted when a `Hypothesis` or
`RootCauseAnalysis` is constructed (the field is a plain `float`), and
such a value flows into the decision logic unchecked — `decide(150, LOW)`
returns AUTO_EXECUTE. -/
theorem C8_construction_validation :
    (∀ action t rb : String,
      mk_RecommendedAction action "LOW" t rb
        = some { action := action, risk_level := "LOW"
                 estimated_resolution_time := t, rollback_plan := rb })
    ∧ (∀ action t rb : String,
      mk_RecommendedAction action "MEDIUM" t rb
        = some { action := action, risk_level := "MEDIUM"
                 estimated_resolution_time := t, rollback_plan := rb })
    ∧ (∀ action t rb : String,
      mk_RecommendedAction action "HIGH" t rb
        = some { action := action, risk_level := "HIGH"
                 estimated_resolution_time := t, rollback_plan := rb })
    ∧ (∀ action risk t rb : String,
      risk ≠ "LOW" → risk ≠ "MEDIUM" → risk ≠ "HIGH" →
      mk_RecommendedAction action risk t rb = none)
    ∧ (∀ (txt : String) (c : ℚ) (ev vq : List String),
      mk_Hypothesis txt c ev vq
        = some { hypothesis := txt, confidence := c
                 supporting_evidence := ev, validation_queries := vq })
    ∧ (∀ (cause : String) (c : ℚ) (explanation : String),
      mk_RootCauseAnalysis cause c explanation
        = some { cause := cause, confidence := c, explanation := explanation })
    ∧ make_decision 150 "LOW" = "AUTO_EXECUTE" := by
  refine ⟨?_, ?_, ?_, ?_, fun _ _ _ _ => rfl, fun _ _ _ => rfl, by decide⟩
  · intro action t rb
    unfold mk_RecommendedAction
    rw [if_pos (Or.inl rfl)]
  · intro action t rb
    unfold mk_RecommendedAction
    rw [if_pos (Or.inr (Or.inl rfl))]
  · intro action t rb
    unfold mk_RecommendedAction
    rw [if_pos (Or.inr (Or.inr rfl))]
  · intro action risk t rb h1 h2 h3
    unfold mk_RecommendedAction
    rw [if_neg]
    rintro (h | h | h)
    · exact h1 h
    · exact h2 h
    · exact h3 h

/-- Witness for C8: the rejection clause applied to the unrecognized tier
"EXTREME". -/
theorem C8_construction_validation_witness :
    mk_RecommendedAction "restart" "EXTREME" "5m" "none" = none :=
  C8_construction_validation.2.2.2.1 "restart" "EXTREME" "5m" "none"
    (by decide) (by decide) (by decide)

/-- C5: for every Findings and HistoryResult, the generated hypothesis list
has length at most 4, is sorted in non-increasing order of confidence, and
hypotheses with equal confidence appear in channel evaluation order
(deployment, resource, connection pool, circuit breaker — the order
measured by `channel_index`). -/
theorem C5_hypothesis_list_invariants (f : DetectiveFindings)
    (h : Option HistorianMatches) :
    (generate_hypotheses f h).length ≤ 4
    ∧ (generate_hypotheses f h).Pairwise (fun a b => b.confidence ≤ a.confidence)
    ∧ (generate_hypotheses f h).Pairwise
        (fun a b => a.confidence = b.confidence → channel_index a < channel_index b) := by
  have hp : (sort_desc (channel_hypotheses f h)).Pairwise hyp_order :=
    pairwise_sort_desc (channel_hypotheses_pairwise f h)
  refine ⟨?_, ?_, ?_⟩
  · unfold generate_hypotheses
    rw [List.length_take]
    exact min_le_left _ _
  · rw [generate_hypotheses_eq_sort]
    exact hp.imp hyp_order_conf
  · rw [generate_hypotheses_eq_sort]
    refine hp.imp ?_
    intro a b hab hconf
    rcases hab with hlt | ⟨_, hidx⟩
    · exact absurd hconf (ne_of_gt hlt)
    · exact hidx

/-- The resource hypothesis confidence written with `max`, as the claim
states it; equal to the source's conditional additions. -/
theorem resource_conf_formula (f : DetectiveFindings) :
    (resource_hypothesis f).confidence
      = min 85 (50 + max 0 (mem_pct f - 60) * 1 + max 0 (cpu_pct f - 70) * (1 / 2)
          + (if "OutOfMemoryError" ∈ f.error_types then 15 else 0)
          + (if f.key_error_messages.any mentions_memory then 10 else 0)) := by
  have h1 : (if 60 < mem_pct f then (mem_pct f - 60) * 1 else 0)
      = max 0 (mem_pct f - 60) * 1 := by
    rcases le_or_lt (mem_pct f) 60 with hm | hm
    · rw [if_neg (not_lt.mpr hm), max_eq_left (by linarith), zero_mul]
    · rw [if_pos hm, max_eq_right (by linarith)]
  have h2 : (if 70 < cpu_pct f then (cpu_pct f - 70) * (1 / 2) else 0)
      = max 0 (cpu_pct f - 70) * (1 / 2) := by
    rcases le_or_lt (cpu_pct f) 70 with hc | hc
    · rw [if_neg (not_lt.mpr hc), max_eq_left (by linarith), zero_mul]
    · rw [if_pos hc, max_eq_right (by linarith)]
  unfold resource_hypothesis
  rw [h1, h2]

/-- C2: whenever memory% > 60 or cpu% > 70, the resource-exhaustion
hypothesis is emitted with confidence
min(85, 50 + max(0, memory%−60)·1 + max(0, cpu%−70)·0.5
+ 15·[OutOfMemoryError among the error types]
+ 10·[some key error message mentions memory]); with memory% ≤ 60 and
cpu% ≤ 70 no resource hypothesis appears in the output. -/
theorem C2_resource_channel (f : DetectiveFindings) (h : Option HistorianMatches) :
    ((60 < mem_pct f ∨ 70 < cpu_pct f) →
      resource_hypothesis f ∈ generate_hypotheses f h
      ∧ (resource_hypothesis f).hypothesis
          = "Memory/CPU exhaustion causing service degradation"
      ∧ (resource_hypothesis f).confidence
          = min 85 (50 + max 0 (mem_pct f - 60) * 1 + max 0 (cpu_pct f - 70) * (1 / 2)
              + (if "OutOfMemoryError" ∈ f.error_types then 15 else 0)
              + (if f.key_error_messages.any mentions_memory then 10 else 0)))
    ∧ (mem_pct f ≤ 60 → cpu_pct f ≤ 70 →
        ∀ x ∈ generate_hypotheses f h,
          x.hypothesis ≠ "Memory/CPU exhaustion causing service degradation") := by
  constructor
  · intro htrig
    refine ⟨?_, rfl, resource_conf_formula f⟩
    rw [mem_generate_hypotheses, mem_channel_hypotheses]
    right
    left
    unfold resource_channel
    rw [if_pos htrig]
  · intro hm hc x hx hcontra
    rw [mem_generate_hypotheses, mem_channel_hypotheses] at hx
    rcases hx with hx | hx | hx | hx
    · rcases deployment_channel_text hx with ht | ht <;> rw [hcontra] at ht <;>
        exact absurd ht (by decide)
    · unfold resource_channel at hx
      rw [if_neg (not_or.mpr ⟨not_lt.mpr hm, not_lt.mpr hc⟩)] at hx
      exact absurd hx (by simp)
    · have ht := connection_channel_text hx
      rw [hcontra] at ht
      exact absurd ht (by decide)
    · have ht := circuit_channel_text hx
      rw [hcontra] at ht
      exact absurd ht (by decide)

/-- Witness for C2: the emission clause at the concrete resource-pressure
findings (memory 80, cpu 75, OutOfMemoryError present). -/
theorem C2_resource_channel_witness :
    resource_hypothesis findings_resource_demo
        ∈ generate_hypotheses findings_resource_demo none
    ∧ (resource_hypothesis findings_resource_demo).hypothesis
        = "Memory/CPU exhaustion causing service degradation"
    ∧ (resource_hypothesis findings_resource_demo).confidence
        = min 85 (50 + max 0 (mem_pct findings_resource_demo - 60) * 1
            + max 0 (cpu_pct findings_resource_demo - 70) * (1 / 2)
            + (if "OutOfMemoryError" ∈ findings_resource_demo.error_types then 15 else 0)
            + (if findings_resource_demo.key_error_messages.any mentions_memory
                then 10 else 0)) :=
  (C2_resource_channel findings_resource_demo none).1 (by decide)

/-- C4: for Findings with no deployment record, more than 100 errors and a
nonempty error-type list, the "possible deployment issue (data
unavailable)" hypothesis is emitted, at confidence 60, raised to 70 when
some similar incident's root cause mentions deployment; its confidence is
always at least 60. -/
theorem C4_fallback_deployment (f : DetectiveFindings) (h : Option HistorianMatches)
    (hdep : f.recent_deployments = []) (hcount : 100 < f.error_count)
    (htypes : f.error_types ≠ []) :
    fallback_deployment_hypothesis f h ∈ generate_hypotheses f h
    ∧ (fallback_deployment_hypothesis f h).hypothesis
        = "Possible deployment-related issue (deployment data unavailable)"
    ∧ (fallback_deployment_hypothesis f h).confidence
        = (if (similar_incidents_of h).any
              (fun incident => substr_of "deployment" (str_lower incident.root_cause))
            then 70 else 60)
    ∧ 60 ≤ (fallback_deployment_hypothesis f h).confidence := by
  refine ⟨?_, rfl, rfl, ?_⟩
  · rw [mem_generate_hypotheses, mem_channel_hypotheses]
    left
    unfold deployment_channel
    rw [hdep]
    exact if_pos ⟨List.length_pos.mpr htypes, hcount⟩
  · unfold fallback_deployment_hypothesis
    simp only
    split_ifs <;> norm_num

/-- Witness for C4: the fallback hypothesis at the concrete no-deployment
findings (500 errors, one error type), with no historical matches. -/
theorem C4_fallback_deployment_witness :
    fallback_deployment_hypothesis findings_no_deploy_demo none
        ∈ generate_hypotheses findings_no_deploy_demo none
    ∧ (fallback_deployment_hypothesis findings_no_deploy_demo none).hypothesis
        = "Possible deployment-related issue (deployment data unavailable)"
    ∧ (fallback_deployment_hypothesis findings_no_deploy_demo none).confidence
        = (if (similar_incidents_of none).any
              (fun incident => substr_of "deployment" (str_lower incident.root_cause))
            then 70 else 60)
    ∧ 60 ≤ (fallback_deployment_hypothesis findings_no_deploy_demo none).confidence :=
  C4_fallback_deployment findings_no_deploy_demo none rfl (by decide) (by decide)

/-- C3 counterexample: at best similarity exactly 70 — inside the claimed
"70–85 band" (the claim reserves "unchanged" for similarities below 70) —
the code applies no boost: a top hypothesis at confidence 80 yields final
confidence 80, not min(90, 80 + 5) = 85. -/
theorem C3_boost_band_counterexample :
    (determine_primary_cause [hyp_80] hist_sim70).confidence = 80
    ∧ ((70 : ℚ) ≤ 70 ∧ (70 : ℚ) ≤ 85)
    ∧ (80 : ℚ) ≠ min 90 (80 + 5) := by
  refine ⟨by decide, by norm_num, ?_⟩
  rw [min_eq_right (by norm_num : (80 : ℚ) + 5 ≤ 90)]
  norm_num

/-- C3 (amended): root-cause selection takes the first (highest-confidence)
hypothesis verbatim as the cause; the confidence boost from the best
historical match is +10 capped at 95 for similarity strictly above 85, +5
capped at 90 for similarity strictly above 70 (and at most 85), and no
change at similarity 70 or below, or with no matches.  In particular a top
hypothesis at confidence 80 with best similarity 90 yields
min(95, 90) = 90. -/
theorem C3_root_cause_boost :
    (∀ (top : Hypothesis) (rest : List Hypothesis) (h : Option HistorianMatches),
      (determine_primary_cause (top :: rest) h).cause = top.hypothesis
      ∧ (determine_primary_cause (top :: rest) h).confidence
          = (match similar_incidents_of h with
             | [] => top.confidence
             | best :: _ =>
               if 85 < best.similarity_score then min 95 (top.confidence + 10)
               else if 70 < best.similarity_score then min 90 (top.confidence + 5)
               else top.confidence))
    ∧ (determine_primary_cause [hyp_80] hist_sim90).confidence = 90
    ∧ (90 : ℚ) = min 95 (80 + 10) := by
  have h90 : min (95 : ℚ) (80 + 10) = 90 := by
    rw [min_eq_right (by norm_num : (80 : ℚ) + 10 ≤ 95)]
    norm_num
  have hconf : (determine_primary_cause [hyp_80] hist_sim90).confidence
      = min 95 (80 + 10) := rfl
  refine ⟨?_, by rw [hconf, h90], by rw [h90]⟩
  intro top rest h
  constructor
  · rfl
  · unfold determine_primary_cause
    rcases hsi : similar_incidents_of h with _ | ⟨best, tl⟩
    · simp [hsi]
    · simp only [hsi]
      split_ifs <;> rfl

/-- C6 counterexample: the fixed fallback cause the code emits is spelled
"Unknown - insufficient data" (plain hyphen), not the claim's
"Unknown — insufficient data" (em dash). -/
theorem C6_dash_counterexample :
    (determine_primary_cause
        (generate_hypotheses findings_scenario_c hist_scenario_c)
        hist_scenario_c).cause
      = "Unknown - insufficient data"
    ∧ "Unknown - insufficient data" ≠ "Unknown — insufficient data" := by
  decide

/-- C6 (amended): when hypothesis generation emits zero hypotheses (as for
scenario C: error_count 5, no error types, memory 20%, cpu 20%, no
matches), root-cause selection does not fail but returns the fixed cause
"Unknown - insufficient data" (plain hyphen) at confidence exactly 30, and
the downstream decision for that diagnosis is ALERT_HUMAN. -/
theorem C6_insufficient_data_fallback :
    (∀ h : Option HistorianMatches,
      determine_primary_cause [] h
        = { cause := "Unknown - insufficient data", confidence := 30
            explanation := "Unable to determine root cause with available data" })
    ∧ generate_hypotheses findings_scenario_c hist_scenario_c = []
    ∧ (determine_primary_cause
        (generate_hypotheses findings_scenario_c hist_scenario_c)
        hist_scenario_c).cause = "Unknown - insufficient data"
    ∧ (determine_primary_cause
        (generate_hypotheses findings_scenario_c hist_scenario_c)
        hist_scenario_c).confidence = 30
    ∧ make_decision
        (determine_primary_cause
          (generate_hypotheses findings_scenario_c hist_scenario_c)
          hist_scenario_c).confidence
        (recommend_action
          (determine_primary_cause
            (generate_hypotheses findings_scenario_c hist_scenario_c)
            hist_scenario_c)
          findings_scenario_c).risk_level
      = "ALERT_HUMAN" := by
  refine ⟨fun h => rfl, by decide, by decide, by decide, by decide⟩

/-- C7: action recommendation is a deterministic keyword lookup over the
lower-cased cause text in the fixed priority order deployment →
memory/cpu/resource → connection/pool → circuit/dependency → default; the
five branches carry risk tiers LOW, LOW, MEDIUM, MEDIUM, MEDIUM, and for
every cause string exactly the first matching branch's
action/risk/time-estimate/rollback tuple is returned. -/
theorem C7_action_lookup (rc : RootCauseAnalysis) (f : DetectiveFindings) :
    (substr_of "deployment" (str_lower rc.cause) = true →
      recommend_action rc f
        = { action := "Rollback " ++ f.affected_service ++ " to previous version"
            risk_level := "LOW"
            estimated_resolution_time := "3-5 minutes"
            rollback_plan := "Deployment rollback is reversible. Can re-deploy if rollback doesn\x27t resolve issue." })
    ∧ (¬(substr_of "deployment" (str_lower rc.cause) = true) →
        (substr_of "memory" (str_lower rc.cause) = true
          ∨ substr_of "cpu" (str_lower rc.cause) = true
          ∨ substr_of "resource" (str_lower rc.cause) = true) →
        recommend_action rc f
          = { action := "Restart " ++ f.affected_service ++ " pods and scale replicas"
              risk_level := "LOW"
              estimated_resolution_time := "5-8 minutes"
              rollback_plan := "Pod restart is safe. Can scale down if issue persists." })
    ∧ (¬(substr_of "deployment" (str_lower rc.cause) = true) →
        ¬(substr_of "memory" (str_lower rc.cause) = true
          ∨ substr_of "cpu" (str_lower rc.cause) = true
          ∨ substr_of "resource" (str_lower rc.cause) = true) →
        (substr_of "connection" (str_lower rc.cause) = true
          ∨ substr_of "pool" (str_lower rc.cause) = true) →
        recommend_action rc f
          = { action := "Scale database/Redis replicas and restart " ++ f.affected_service
              risk_level := "MEDIUM"
              estimated_resolution_time := "8-12 minutes"
              rollback_plan := "Scaling is reversible. Monitor connection metrics after change." })
    ∧ (¬(substr_of "deployment" (str_lower rc.cause) = true) →
        ¬(substr_of "memory" (str_lower rc.cause) = true
          ∨ substr_of "cpu" (str_lower rc.cause) = true
          ∨ substr_of "resource" (str_lower rc.cause) = true) →
        ¬(substr_of "connection" (str_lower rc.cause) = true
          ∨ substr_of "pool" (str_lower rc.cause) = true) →
        (substr_of "circuit" (str_lower rc.cause) = true
          ∨ substr_of "dependency" (str_lower rc.cause) = true) →
        recommend_action rc f
          = { action := "Investigate downstream dependencies and restart " ++ f.affected_service
              risk_level := "MEDIUM"
              estimated_resolution_time := "10-15 minutes"
              rollback_plan := "Identify failed dependency. May need to route traffic away from affected region." })
    ∧ (¬(substr_of "deployment" (str_lower rc.cause) = true) →
        ¬(substr_of "memory" (str_lower rc.cause) = true
          ∨ substr_of "cpu" (str_lower rc.cause) = true
          ∨ substr_of "resource" (str_lower rc.cause) = true) →
        ¬(substr_of "connection" (str_lower rc.cause) = true
          ∨ substr_of "pool" (str_lower rc.cause) = true) →
        ¬(substr_of "circuit" (str_lower rc.cause) = true
          ∨ substr_of "dependency" (str_lower rc.cause) = true) →
        recommend_action rc f
          = { action := "Restart " ++ f.affected_service ++ " and monitor closely"
              risk_level := "MEDIUM"
              estimated_resolution_time := "5-10 minutes"
              rollback_plan := "Generic restart. Escalate to human if not resolved within 5 minutes." }) := by
  refine ⟨?_, ?_, ?_, ?_, ?_⟩
  · intro h1
    unfold recommend_action
    rw [if_pos h1]
  · intro h1 h2
    unfold recommend_action
    rw [if_neg h1, if_pos h2]
  · intro h1 h2 h3
    unfold recommend_action
    rw [if_neg h1, if_neg h2, if_pos h3]
  · intro h1 h2 h3 h4
    unfold recommend_action
    rw [if_neg h1, if_neg h2, if_neg h3, if_pos h4]
  · intro h1 h2 h3 h4
    unfold recommend_action
    rw [if_neg h1, if_neg h2, if_neg h3, if_neg h4]

theorem C7_action_lookup_witness :
    recommend_action rc_deploy_demo findings_scenario_c
      = { action := "Rollback " ++ findings_scenario_c.affected_service
            ++ " to previous version"
          risk_level := "LOW"
          estimated_resolution_time := "3-5 minutes"
          rollback_plan := "Deployment rollback is reversible. Can re-deploy if rollback doesn\x27t resolve issue." } :=
  (C7_action_lookup rc_deploy_demo findings_scenario_c).1 (by decide)

/-- C9 counterexample: a run where the detective stage completes (its
output is produced) and the historian stage then fails: `handle_alert`
propagates the exception paired with the failed pre-run initial state,
and that state has `detective_findings = none` — the completed stage
output is not retained, contrary to the claim. -/
theorem C9_retention_counterexample :
    demo_investigate (init_state demo_alert 0) = Except.ok findings_scenario_c
    ∧ handle_alert demo_investigate demo_search_history_fail demo_analyze_fail
        demo_respond_fail demo_alert 0 5
      = Except.error ("history index unavailable",
          mark_failed (init_state demo_alert 0) "history index unavailable" 5)
    ∧ (mark_failed (init_state demo_alert 0) "history index unavailable" 5).workflow_status
        = "failed"
    ∧ (mark_failed (init_state demo_alert 0) "history index unavailable" 5).detective_findings
        = none := by
  exact ⟨rfl, rfl, rfl, rfl⟩

/-- C9 (amended): if any stage raises an uncaught exception during a
pipeline run, the coordinator records the error into the incident's error
list, marks the incident state failed with a completion timestamp and
total duration, and re-raises the exception to the caller; the failed
state has `workflow_status = "failed"` and a non-empty error list, but it
is the pre-run initial state: the graph engine never writes node outputs
back into it (the coordinator copies them back only on success), so the
failed state retains no stage outputs — every output field is `none`. -/
theorem C9_pipeline_failure
    (investigate : IncidentState → Except String DetectiveFindings)
    (search_history : IncidentState → Except String HistorianMatches)
    (analyze : IncidentState → Except String AnalyzerDiagnosis)
    (respond : IncidentState → Except String ResponderAction)
    (alert : AlertPayload) (start_time finish_time : ℚ)
    (e : String) (s : IncidentState)
    (hrun : handle_alert investigate search_history analyze respond alert
        start_time finish_time = Except.error (e, s)) :
    s.workflow_status = "failed"
    ∧ s.errors = [e]
    ∧ s.completed_at = some finish_time
    ∧ s.total_duration_seconds = some (finish_time - start_time)
    ∧ s = mark_failed (init_state alert start_time) e finish_time
    ∧ s.detective_findings = none
    ∧ s.historian_matches = none
    ∧ s.analyzer_diagnosis = none
    ∧ s.responder_action = none := by
  unfold handle_alert at hrun
  dsimp only at hrun
  cases hw : workflow_invoke investigate search_history analyze respond finish_time
      (init_state alert start_time) with
  | ok final =>
    rw [hw] at hrun
    exact absurd hrun (by simp)
  | error e0 =>
    rw [hw] at hrun
    dsimp only at hrun
    simp only [Except.error.injEq, Prod.mk.injEq] at hrun
    obtain ⟨he, hs⟩ := hrun
    subst he
    subst hs
    exact ⟨rfl, rfl, rfl, rfl, rfl, rfl, rfl, rfl, rfl⟩

/-- Witness for C9: the historian-failure run applied to the theorem; the
captured state is failed, carries the error and timestamps, and holds no
detective findings. -/
theorem C9_pipeline_failure_witness :
    (mark_failed (init_state demo_alert 0) "history index unavailable" 5).workflow_status
        = "failed"
    ∧ (mark_failed (init_state demo_alert 0) "history index unavailable" 5).errors
        = ["history index unavailable"]
    ∧ (mark_failed (init_state demo_alert 0) "history index unavailable" 5).completed_at
        = some 5
    ∧ (mark_failed (init_state demo_alert 0) "history index unavailable" 5).total_duration_seconds
        = some (5 - 0)
    ∧ (mark_failed (init_state demo_alert 0) "history index unavailable" 5).detective_findings
        = none := by
  have h := C9_pipeline_failure demo_investigate demo_search_history_fail
    demo_analyze_fail demo_respond_fail demo_alert 0 5 "history index unavailable"
    (mark_failed (init_state demo_alert 0) "history index unavailable" 5) rfl
  exact ⟨h.1, h.2.1, h.2.2.1, h.2.2.2.1, h.2.2.2.2.2.1⟩
